import Mathlib

/-!
Verification development for the bern-test on-target test harness.

The embedding below translates the runtime core of the repository:

* `run_all` — `src/run_all.rs`, the persisted run-state store (a sentinel
  word, a next-test index and a success counter kept in memory that survives
  a warm reset).
* `serial` — `src/serial.rs`, the `readln` line reader over an abstract byte
  channel.
* `console` — `src/console.rs`, the selection loop `handle_user_input`.
* the coordinator functions generated by the `#[bern_test::tests]` macro
  (`macros/src/lib.rs`): `runner`, `__runall_initiate`, `__runall`, `__run`
  and the panic hook `panicked`.

Machine integers (`u8`, `u32`) are modelled as `Nat` with an explicit
`% 256` wherever the source performs a `u8` cast or a wrapping `u8`
operation.  Printing and invocations of the externally supplied hooks
(per-test set-up, per-test tear-down, global tear-down, test bodies) are
recorded as events in a trace; calls into the store's `activate`/`deactivate`
are recorded as events as well so that the call sequence of a run is
explicit in the model.  A test body is external code; the model only keeps
its observable outcome: it either returns normally or panics with a payload.
-/

/-- Persisted run state: the three `#[link_section = ".uninit"]` statics
`TEST_SECRET`, `TEST_NEXT`, `TEST_SUCCESSFUL` of `src/run_all.rs`. -/
structure RunState where
  secret : Nat
  next : Nat
  success : Nat
  deriving DecidableEq, Repr

namespace run_all

/-- `SECRET_NUMBER` of `src/run_all.rs`. -/
def SECRET_NUMBER : Nat := 0x12345678

/-- `activate` sets the sentinel and zeroes the success counter; it does not
touch the next-test index. -/
def activate (s : RunState) : RunState :=
  { s with secret := SECRET_NUMBER, success := 0 }

/-- `deactivate` clears the sentinel. -/
def deactivate (s : RunState) : RunState :=
  { s with secret := 0 }

/-- `is_active` compares the sentinel word to the magic constant. -/
def is_active (s : RunState) : Bool :=
  s.secret == SECRET_NUMBER

/-- `get_next_test` reads the persisted next-test index. -/
def get_next_test (s : RunState) : Nat :=
  s.next

/-- `set_next_test` stores a `u8` index. -/
def set_next_test (index : Nat) (s : RunState) : RunState :=
  { s with next := index % 256 }

/-- `test_succeeded` increments the `u8` success counter. -/
def test_succeeded (s : RunState) : RunState :=
  { s with success := (s.success + 1) % 256 }

/-- `get_success_count` reads the success counter. -/
def get_success_count (s : RunState) : Nat :=
  s.success

end run_all

/-- The store's public operations of `src/run_all.rs` that mutate the
persisted state, as an enumeration (used to state that `activate` is the
only operation that can establish the sentinel). -/
inductive StoreOp
  | activateOp
  | deactivateOp
  | setNextOp (index : Nat)
  | succeedOp
  deriving DecidableEq, Repr

/-- Semantics of a store operation on the persisted state. -/
def StoreOp.apply : StoreOp → RunState → RunState
  | .activateOp, s => run_all.activate s
  | .deactivateOp, s => run_all.deactivate s
  | .setNextOp i, s => run_all.set_next_test i s
  | .succeedOp, s => run_all.test_succeeded s

/-- Observable events of one power cycle: printed lines, invocations of the
generated hooks, invocations of a test body, and calls into the store's
activate/deactivate. -/
inductive Event
  | print (line : String)
  | setUpHook
  | tearDownHook
  | globalTearDownHook
  | body (index : Nat)
  | activateCall
  | deactivateCall
  deriving DecidableEq, Repr

/-- Recognizes test-body invocation events. -/
def isBodyEvent : Event → Bool
  | .body _ => true
  | _ => false

/-- Whole-system state of one power cycle: the persisted store, the
ephemeral `SHOULD_PANIC` flag, and the trace of observable events. -/
structure Sys where
  store : RunState
  shouldPanic : Bool
  trace : List Event
  deriving DecidableEq, Repr

/-- State at entry of a power cycle: the persisted region carries whatever
it held, `SHOULD_PANIC` is statically initialized to `false`
(`AtomicBool::new(false)`), and no output has been produced yet. -/
def bootSys (st : RunState) : Sys :=
  { store := st, shouldPanic := false, trace := [] }

/-- One printed line (`println!`/`print!` both emit a print event). -/
def printLine (line : String) (s : Sys) : Sys :=
  { s with trace := s.trace ++ [Event.print line] }

/-- New events a function added to the trace of `s`. -/
def traceDelta (s : Sys) (s2 : Sys) : List Event :=
  s2.trace.drop s.trace.length

/-- `bern_test::test_succeeded` of `src/lib.rs`: print `ok` and bump the
persisted success counter. -/
def test_succeeded (s : Sys) : Sys :=
  { s with
    trace := s.trace ++ [Event.print "ok"],
    store := run_all.test_succeeded s.store }

/-- `bern_test::test_failed` of `src/lib.rs`: print `FAILED` and the reason
line; the success counter is not touched. -/
def test_failed (message : String) (s : Sys) : Sys :=
  { s with trace := s.trace ++ [Event.print "FAILED", Event.print message] }

/-- `bern_test::test_panicked` of `src/lib.rs`: print `FAILED` and the
panic diagnostic payload; the success counter is not touched. -/
def test_panicked (info : String) (s : Sys) : Sys :=
  { s with
    trace := s.trace ++
      [Event.print "FAILED", Event.print (" └─ stdout:\n" ++ info)] }

/-- Outcome of invoking a test body (external code): it returns normally or
panics with a diagnostic payload. -/
inductive BodyOutcome
  | normal
  | panics (info : String)
  deriving DecidableEq, Repr

/-- One entry of the test registry assembled by the `tests` macro:
the function name, its `#[should_panic]` flag, and the body. -/
structure TestDescriptor where
  name : String
  shouldPanic : Bool
  body : BodyOutcome
  deriving DecidableEq, Repr

/-- `tests.len() as u8`, the `n_tests` constant baked into the generated
module. -/
def numTests (tests : List TestDescriptor) : Nat :=
  tests.length % 256

/-- Wrapping `u8` subtraction, for `#n_tests - 1` and
`#n_tests - successes` in the generated code. -/
def wrapSub8 (a b : Nat) : Nat :=
  (a % 256 + 256 - b % 256) % 256

/-- Generated `__test_set_up`: invoke the user's per-test set-up hook. -/
def __test_set_up (s : Sys) : Sys :=
  { s with trace := s.trace ++ [Event.setUpHook] }

/-- Generated `__test_tear_down`: invoke the user's per-test tear-down
hook. -/
def __test_tear_down (s : Sys) : Sys :=
  { s with trace := s.trace ++ [Event.tearDownHook] }

/-- Generated `__tear_down`: invoke the user's one-time global tear-down
hook. -/
def __tear_down (s : Sys) : Sys :=
  { s with trace := s.trace ++ [Event.globalTearDownHook] }

/-- The two lines of the generated `__print_header` (`term_reset!()` line
and the version banner; the version string is external to the sources). -/
def headerEvents : List Event :=
  [Event.print "", Event.print "~~~~~~~~~~~~~~ Bern Test ~~~~~~~~~~~~~~"]

/-- Generated `__print_header`. -/
def __print_header (s : Sys) : Sys :=
  { s with trace := s.trace ++ headerEvents }

/-- The per-test menu lines of the generated `__list_tests`. -/
def testListLines (tests : List TestDescriptor) (module : String) : List String :=
  tests.enum.map (fun p => "[" ++ toString p.1 ++ "] " ++ module ++ "::" ++ p.2.name)

/-- All events of the generated `__list_tests`: one line per test, the
run-all option, and the selection prompt. -/
def listEvents (tests : List TestDescriptor) (module : String) : List Event :=
  (testListLines tests module).map Event.print ++
    [Event.print "[255] run all tests",
     Event.print ("Select test [0.." ++ toString (wrapSub8 (numTests tests) 1) ++ "]:")]

/-- Generated `__list_tests`. -/
def __list_tests (tests : List TestDescriptor) (module : String) (s : Sys) : Sys :=
  { s with trace := s.trace ++ listEvents tests module }

/-- Generated `__runall_initiate`: `activate()` the store, persist next
index `0`, and print the `running N tests` banner. -/
def __runall_initiate (tests : List TestDescriptor) (s : Sys) : Sys :=
  let s1 : Sys :=
    { s with store := run_all.activate s.store, trace := s.trace ++ [Event.activateCall] }
  let s2 : Sys := { s1 with store := run_all.set_next_test 0 s1.store }
  printLine ("\nrunning " ++ toString (numTests tests) ++ " tests") s2

/-- Generated `__run`: dispatch on the index over the generated match arms
(`0..tests.len()-1`, wildcard arm does nothing).  For a hit: print the
`test module::name ... ` prefix, store the test's `should_panic` flag into
`SHOULD_PANIC`, invoke the body.  If the body returns normally the outcome
is accounted right here; if it panics, control leaves to the panic handler,
which the second component reports (with the panic payload). -/
def __run (tests : List TestDescriptor) (module : String) (index : Nat)
    (s : Sys) : Sys × Option String :=
  match tests[index]? with
  | none => (s, none)
  | some t =>
      let s1 : Sys :=
        { s with trace := s.trace ++ [Event.print ("test " ++ module ++ "::" ++ t.name ++ " ... ")] }
      let s2 : Sys := { s1 with shouldPanic := t.shouldPanic }
      let s3 : Sys := { s2 with trace := s2.trace ++ [Event.body index] }
      match t.body with
      | .panics info => (s3, some info)
      | .normal =>
          if !t.shouldPanic then (test_succeeded s3, none)
          else (test_failed " └─ did not panic" s3, none)

/-- Generated `panicked`, the target of the `#[panic_handler]`: classify the
panic with the `SHOULD_PANIC` flag, then invoke the per-test tear-down
hook.  Control never returns to the interrupted code. -/
def panicked (info : String) (s : Sys) : Sys :=
  let s1 : Sys := if s.shouldPanic then test_succeeded s else test_panicked info s
  __test_tear_down s1

/-- The generated sequence `__test_set_up(); __run(index); __test_tear_down();`
together with the panic-handler edge: when the body panics the remaining
caller code does not run, `panicked` runs instead and the cycle halts (the
returned flag is `true` when the cycle halted in the panic handler). -/
def runTestCycle (tests : List TestDescriptor) (module : String) (index : Nat)
    (s : Sys) : Sys × Bool :=
  let s1 := __test_set_up s
  match __run tests module index s1 with
  | (s2, none) => (__test_tear_down s2, false)
  | (s2, some info) => (panicked info s2, true)

/-- The summary line of the generated `__runall`:
`test result: ok|FAILED. S passed; N-S failed` (colors disabled). -/
def summaryLine (tests : List TestDescriptor) (successes : Nat) : String :=
  "\ntest result: " ++ (if successes = numTests tests then "ok" else "FAILED") ++
    ". " ++ toString successes ++ " passed; " ++
    toString (wrapSub8 (numTests tests) successes) ++ " failed"

/-- Generated `__runall`: one step of the unattended run.  If the persisted
index is in range, persist index+1 and run that test (set-up, body,
tear-down); otherwise print the summary, `deactivate()` and run the global
tear-down.  The returned flag is `true` when the cycle halted in the panic
handler. -/
def __runall (tests : List TestDescriptor) (module : String) (s : Sys) : Sys × Bool :=
  let test_index := run_all.get_next_test s.store
  if test_index < numTests tests then
    let s1 : Sys := { s with store := run_all.set_next_test (test_index + 1) s.store }
    runTestCycle tests module test_index s1
  else
    let successes := run_all.get_success_count s.store
    let s1 := printLine (summaryLine tests successes) s
    let s2 : Sys :=
      { s1 with store := run_all.deactivate s1.store, trace := s1.trace ++ [Event.deactivateCall] }
    (__tear_down s2, false)

/-- Generated `runner`, the coordinator entry point called on every boot.
`autorun` is the `autorun` cargo feature (`is_autorun_enabled`), `sel` is
the selection `handle_user_input` eventually returns in the interactive
branch (a `u8`).  After the first phase, the trailing
`if run_all::is_active() { __runall(...) }` runs — unless the first phase
already halted in the panic handler, in which case control never got
there. -/
def runner (autorun : Bool) (sel : Nat) (tests : List TestDescriptor)
    (module : String) (s : Sys) : Sys × Bool :=
  let phase1 : Sys × Bool :=
    if autorun && !(run_all.is_active s.store) then
      (__runall_initiate tests (__print_header s), false)
    else if !(run_all.is_active s.store) then
      let s1 := __list_tests tests module (__print_header s)
      if sel = 255 then (__runall_initiate tests s1, false)
      else runTestCycle tests module sel (printLine "" s1)
    else (s, false)
  match phase1 with
  | (s1, true) => (s1, true)
  | (s1, false) =>
      if run_all.is_active s1.store then __runall tests module s1
      else (s1, false)

namespace serial

/-- `serial::Error` of `src/serial.rs`. -/
inductive Error
  | Peripheral
  | NoUplink
  | NoDownlink
  | BufferOverrun
  deriving DecidableEq, Repr

/-- One result delivered by the registered read closure after `block!`:
either a byte or a hard error (`nb::Error::Other`). -/
abbrev ReadEvent := Except Error Nat

/-- The `for (i, item) in buffer.iter_mut().enumerate()` loop of `readln`:
`slots` buffer slots remain, `written` bytes are already stored.  Yields
`none` when the channel has no further event (the `block!` would block
forever), otherwise the loop's result together with the unconsumed rest of
the channel.  A `\n` or `\r` byte (10 or 13) ends the line with `Ok(i)`
where `i` bytes are stored; exhausting the buffer yields `BufferOverrun`. -/
def readlnAux : List ReadEvent → Nat → List Nat →
    Option (Except Error (Nat × List Nat) × List ReadEvent)
  | stream, 0, _ => some (Except.error Error.BufferOverrun, stream)
  | [], _ + 1, _ => none
  | ev :: rest, slots + 1, written =>
      match ev with
      | Except.error e => some (Except.error e, rest)
      | Except.ok b =>
          if b = 10 ∨ b = 13 then some (Except.ok (written.length, written), rest)
          else readlnAux rest slots (written ++ [b])

/-- `Serial::readln`: `NoDownlink` when no read closure is registered,
otherwise the buffer loop with `buflen` free slots. -/
def readln (downlink : Bool) (buflen : Nat) (stream : List ReadEvent) :
    Option (Except Error (Nat × List Nat) × List ReadEvent) :=
  if downlink then readlnAux stream buflen []
  else some (Except.error Error.NoDownlink, stream)

end serial

namespace console

/-- Byte in the half-open range `lo..hi`. -/
def inRange (lo hi b : Nat) : Bool :=
  decide (lo ≤ b) && decide (b < hi)

/-- UTF-8 continuation byte (`0x80..=0xBF`). -/
def isCont (b : Nat) : Bool :=
  inRange 128 192 b

/-- UTF-8 validity of a byte sequence, as checked by
`core::str::from_utf8`. -/
def validUtf8 : List Nat → Bool
  | [] => true
  | b :: rest =>
      if b < 128 then validUtf8 rest
      else if b < 194 then false
      else if b < 224 then
        match rest with
        | c :: rest2 => isCont c && validUtf8 rest2
        | [] => false
      else if b < 240 then
        match rest with
        | c1 :: c2 :: rest2 =>
            (if b = 224 then inRange 160 192 c1
             else if b = 237 then inRange 128 160 c1
             else isCont c1) && isCont c2 && validUtf8 rest2
        | _ => false
      else if b < 245 then
        match rest with
        | c1 :: c2 :: c3 :: rest2 =>
            (if b = 240 then inRange 144 192 c1
             else if b = 244 then inRange 128 144 c1
             else isCont c1) && isCont c2 && isCont c3 && validUtf8 rest2
        | _ => false
      else false

/-- ASCII decimal digit. -/
def isDigit (b : Nat) : Bool :=
  inRange 48 58 b

/-- `str::parse::<u8>()` on the received bytes: an optional leading `+`,
then a nonempty run of decimal digits whose value fits in a `u8`;
anything else is a parse failure. -/
def parse_u8 (bs : List Nat) : Option Nat :=
  let digits := match bs with
    | 43 :: rest => rest
    | _ => bs
  if digits ≠ [] ∧ digits.all isDigit then
    let v := digits.foldl (fun a b => a * 10 + (b - 48)) 0
    if v ≤ 255 then some v else none
  else none

/-- The diagnostic printed for each `serial::Error` by
`handle_user_input`. -/
def errorLine : serial.Error → String
  | serial.Error.BufferOverrun => "Error: Serial RX buffer overflow"
  | serial.Error.NoDownlink => "Error: No serial downlink provided"
  | _ => "Error: Unknown serial error"

/-- The diagnostic printed when parsing the received line fails. -/
def parseErrorLine : String := "Error: Could not parse test index"

/-- One iteration of the `loop` in `handle_user_input`, with a fresh 128
byte buffer.  Yields `none` when the read blocks forever; otherwise
`(parsed index or retry, diagnostic lines printed, rest of the channel)`.
A serial read error prints its diagnostic and then falls through to the
parse of the still-empty `command`, which prints the parse diagnostic; a
line that is not valid UTF-8 silently restarts the loop (`continue`). -/
def handle_user_input_iter (downlink : Bool) (stream : List serial.ReadEvent) :
    Option (Option Nat × List String × List serial.ReadEvent) :=
  match serial.readln downlink 128 stream with
  | none => none
  | some (Except.error e, rest) => some (none, [errorLine e, parseErrorLine], rest)
  | some (Except.ok (_, bytes), rest) =>
      if validUtf8 bytes then
        match parse_u8 bytes with
        | some i => some (some i, [], rest)
        | none => some (none, [parseErrorLine], rest)
      else some (none, [], rest)

/-- `handle_user_input`, iterated for at most `fuel` loop iterations:
yields the first successfully parsed index together with all diagnostic
lines printed on the way, or `none` when the loop blocked or `fuel` ran
out. -/
def handle_user_input (downlink : Bool) : Nat → List serial.ReadEvent →
    Option (Nat × List String)
  | 0, _ => none
  | fuel + 1, stream =>
      match handle_user_input_iter downlink stream with
      | none => none
      | some (some i, lines, _) => some (i, lines)
      | some (none, lines, rest) =>
          match handle_user_input downlink fuel rest with
          | some (i, more) => some (i, lines ++ more)
          | none => none

end console

/-- `handle_user_input` as seen from the coordinator's power cycle: its
diagnostic lines join the output trace, and — `src/console.rs` containing
no access to the store — the persisted state and the flag pass through. -/
def handle_user_input_in_sys (downlink : Bool) (fuel : Nat)
    (stream : List serial.ReadEvent) (s : Sys) : Option (Nat × Sys) :=
  match console.handle_user_input downlink fuel stream with
  | none => none
  | some (i, lines) => some (i, { s with trace := s.trace ++ lines.map Event.print })

/-! ### Concrete fixtures for witnesses and counterexamples -/

/-- A small registry exercising every outcome kind: a passing test, a
should-panic test that panics, a failing (panicking) test, and a
should-panic test that returns normally. -/
def demoTests : List TestDescriptor :=
  [ { name := "a", shouldPanic := false, body := BodyOutcome.normal },
    { name := "b", shouldPanic := true, body := BodyOutcome.panics "b panicked" },
    { name := "c", shouldPanic := false, body := BodyOutcome.panics "assertion failed" },
    { name := "d", shouldPanic := true, body := BodyOutcome.normal } ]

/-! ### Helper lemmas -/

theorem take_append_self {α : Type} (l₁ l₂ : List α) :
    (l₁ ++ l₂).take l₁.length = l₁ := by
  induction l₁ with
  | nil => rfl
  | cons a t ih => simp [ih]

theorem drop_append_self {α : Type} (l₁ l₂ : List α) :
    (l₁ ++ l₂).drop l₁.length = l₂ := by
  induction l₁ with
  | nil => rfl
  | cons a t ih => simp [ih]

theorem traceDelta_of_append (s s2 : Sys) (d : List Event)
    (h : s2.trace = s.trace ++ d) : traceDelta s s2 = d := by
  simp [traceDelta, h, drop_append_self]

/-- A test cycle touches the store at most through one success bump. -/
theorem runTestCycle_store (tests : List TestDescriptor) (module : String)
    (i : Nat) (s : Sys) :
    (runTestCycle tests module i s).1.store = s.store ∨
    (runTestCycle tests module i s).1.store = run_all.test_succeeded s.store := by
  unfold runTestCycle __run
  rcases h : tests[i]? with _ | t
  · left
    simp [__test_set_up, __test_tear_down]
  · rcases hb : t.body with _ | info
    · cases hp : t.shouldPanic
      · right
        simp [hb, hp, __test_set_up, __test_tear_down, test_succeeded]
      · left
        simp [hb, hp, __test_set_up, __test_tear_down, test_failed]
    · cases hp : t.shouldPanic
      · left
        simp [hb, hp, panicked, __test_set_up, __test_tear_down, test_panicked]
      · right
        simp [hb, hp, panicked, __test_set_up, __test_tear_down, test_succeeded]

/-- A test cycle only appends to the trace. -/
theorem runTestCycle_trace (tests : List TestDescriptor) (module : String)
    (i : Nat) (s : Sys) :
    ∃ d, (runTestCycle tests module i s).1.trace = s.trace ++ d := by
  unfold runTestCycle __run
  rcases h : tests[i]? with _ | t
  · exact ⟨[Event.setUpHook, Event.tearDownHook],
      by simp [__test_set_up, __test_tear_down]⟩
  · rcases hb : t.body with _ | info
    · cases hp : t.shouldPanic
      · exact ⟨[Event.setUpHook, Event.print ("test " ++ module ++ "::" ++ t.name ++ " ... "),
            Event.body i, Event.print "ok", Event.tearDownHook],
          by simp [hb, hp, __test_set_up, __test_tear_down, test_succeeded]⟩
      · exact ⟨[Event.setUpHook, Event.print ("test " ++ module ++ "::" ++ t.name ++ " ... "),
            Event.body i, Event.print "FAILED", Event.print " └─ did not panic",
            Event.tearDownHook],
          by simp [hb, hp, __test_set_up, __test_tear_down, test_failed]⟩
    · cases hp : t.shouldPanic
      · exact ⟨[Event.setUpHook, Event.print ("test " ++ module ++ "::" ++ t.name ++ " ... "),
            Event.body i, Event.print "FAILED", Event.print (" └─ stdout:\n" ++ info),
            Event.tearDownHook],
          by simp [hb, hp, panicked, __test_set_up, __test_tear_down, test_panicked]⟩
      · exact ⟨[Event.setUpHook, Event.print ("test " ++ module ++ "::" ++ t.name ++ " ... "),
            Event.body i, Event.print "ok", Event.tearDownHook],
          by simp [hb, hp, panicked, __test_set_up, __test_tear_down, test_succeeded]⟩

/-- An unattended-run step only appends to the trace. -/
theorem runall_trace (tests : List TestDescriptor) (module : String) (s : Sys) :
    ∃ d, (__runall tests module s).1.trace = s.trace ++ d := by
  unfold __runall
  by_cases hlt : run_all.get_next_test s.store < numTests tests
  · simp only [hlt, if_true]
    exact runTestCycle_trace tests module _ _
  · simp only [hlt, if_false]
    exact ⟨[Event.print (summaryLine tests (run_all.get_success_count s.store)),
        Event.deactivateCall, Event.globalTearDownHook],
      by simp [printLine, __tear_down]⟩

/-! ### Claim theorems -/

/-- C3: a should-panic test whose body panics is recorded as success
(prints ok and bumps the persisted success counter); a should-panic test
whose body returns normally is recorded as failure with reason
"did not panic" and the counter is not bumped; a test not marked
should-panic whose body panics is recorded as failure with the panic's
diagnostic payload and the counter is not bumped; and in the normal-return
path as well as in the panic path the per-test tear-down hook runs exactly
once. -/
theorem C3_panic_bridge (tests : List TestDescriptor) (module : String)
    (i1 i2 i3 i4 : Nat) (t1 t2 t3 t4 : TestDescriptor) (info1 info3 : String)
    (s1 s2 s3 s4 : Sys)
    (h1 : tests[i1]? = some t1) (h1p : t1.shouldPanic = true)
    (h1b : t1.body = BodyOutcome.panics info1)
    (h2 : tests[i2]? = some t2) (h2p : t2.shouldPanic = true)
    (h2b : t2.body = BodyOutcome.normal)
    (h3 : tests[i3]? = some t3) (h3p : t3.shouldPanic = false)
    (h3b : t3.body = BodyOutcome.panics info3)
    (h4 : tests[i4]? = some t4) :
    ((runTestCycle tests module i1 s1).1.store.success = (s1.store.success + 1) % 256 ∧
      Event.print "ok" ∈ traceDelta s1 (runTestCycle tests module i1 s1).1) ∧
    ((runTestCycle tests module i2 s2).1.store.success = s2.store.success ∧
      Event.print "FAILED" ∈ traceDelta s2 (runTestCycle tests module i2 s2).1 ∧
      Event.print " └─ did not panic" ∈ traceDelta s2 (runTestCycle tests module i2 s2).1) ∧
    ((runTestCycle tests module i3 s3).1.store.success = s3.store.success ∧
      Event.print "FAILED" ∈ traceDelta s3 (runTestCycle tests module i3 s3).1 ∧
      Event.print (" └─ stdout:\n" ++ info3) ∈ traceDelta s3 (runTestCycle tests module i3 s3).1) ∧
    List.count Event.tearDownHook (traceDelta s4 (runTestCycle tests module i4 s4).1) = 1 := by
  have d1 : traceDelta s1 (runTestCycle tests module i1 s1).1 =
      [Event.setUpHook, Event.print ("test " ++ module ++ "::" ++ t1.name ++ " ... "),
       Event.body i1, Event.print "ok", Event.tearDownHook] :=
    traceDelta_of_append _ _ _ (by
      simp [runTestCycle, __run, h1, h1b, h1p, panicked, __test_set_up,
        __test_tear_down, test_succeeded])
  have d2 : traceDelta s2 (runTestCycle tests module i2 s2).1 =
      [Event.setUpHook, Event.print ("test " ++ module ++ "::" ++ t2.name ++ " ... "),
       Event.body i2, Event.print "FAILED", Event.print " └─ did not panic",
       Event.tearDownHook] :=
    traceDelta_of_append _ _ _ (by
      simp [runTestCycle, __run, h2, h2b, h2p, __test_set_up, __test_tear_down,
        test_failed])
  have d3 : traceDelta s3 (runTestCycle tests module i3 s3).1 =
      [Event.setUpHook, Event.print ("test " ++ module ++ "::" ++ t3.name ++ " ... "),
       Event.body i3, Event.print "FAILED", Event.print (" └─ stdout:\n" ++ info3),
       Event.tearDownHook] :=
    traceDelta_of_append _ _ _ (by
      simp [runTestCycle, __run, h3, h3b, h3p, panicked, __test_set_up,
        __test_tear_down, test_panicked])
  refine ⟨⟨?_, ?_⟩, ⟨?_, ?_, ?_⟩, ⟨?_, ?_, ?_⟩, ?_⟩
  · simp [runTestCycle, __run, h1, h1b, h1p, panicked, __test_set_up,
      __test_tear_down, test_succeeded, run_all.test_succeeded]
  · rw [d1]; simp
  · simp [runTestCycle, __run, h2, h2b, h2p, __test_set_up, __test_tear_down,
      test_failed]
  · rw [d2]; simp
  · rw [d2]; simp
  · simp [runTestCycle, __run, h3, h3b, h3p, panicked, __test_set_up,
      __test_tear_down, test_panicked]
  · rw [d3]; simp
  · rw [d3]; simp
  · rcases hb : t4.body with _ | info
    · cases hp : t4.shouldPanic
      · have d4 : traceDelta s4 (runTestCycle tests module i4 s4).1 =
            [Event.setUpHook, Event.print ("test " ++ module ++ "::" ++ t4.name ++ " ... "),
             Event.body i4, Event.print "ok", Event.tearDownHook] :=
          traceDelta_of_append _ _ _ (by
            simp [runTestCycle, __run, h4, hb, hp, __test_set_up, __test_tear_down,
              test_succeeded])
        rw [d4]; simp [List.count_cons]
      · have d4 : traceDelta s4 (runTestCycle tests module i4 s4).1 =
            [Event.setUpHook, Event.print ("test " ++ module ++ "::" ++ t4.name ++ " ... "),
             Event.body i4, Event.print "FAILED", Event.print " └─ did not panic",
             Event.tearDownHook] :=
          traceDelta_of_append _ _ _ (by
            simp [runTestCycle, __run, h4, hb, hp, __test_set_up, __test_tear_down,
              test_failed])
        rw [d4]; simp [List.count_cons]
    · cases hp : t4.shouldPanic
      · have d4 : traceDelta s4 (runTestCycle tests module i4 s4).1 =
            [Event.setUpHook, Event.print ("test " ++ module ++ "::" ++ t4.name ++ " ... "),
             Event.body i4, Event.print "FAILED", Event.print (" └─ stdout:\n" ++ info),
             Event.tearDownHook] :=
          traceDelta_of_append _ _ _ (by
            simp [runTestCycle, __run, h4, hb, hp, panicked, __test_set_up,
              __test_tear_down, test_panicked])
        rw [d4]; simp [List.count_cons]
      · have d4 : traceDelta s4 (runTestCycle tests module i4 s4).1 =
            [Event.setUpHook, Event.print ("test " ++ module ++ "::" ++ t4.name ++ " ... "),
             Event.body i4, Event.print "ok", Event.tearDownHook] :=
          traceDelta_of_append _ _ _ (by
            simp [runTestCycle, __run, h4, hb, hp, panicked, __test_set_up,
              __test_tear_down, test_succeeded])
        rw [d4]; simp [List.count_cons]

/-- C10: the shared `SHOULD_PANIC` flag starts each power cycle as `false`,
is written by `__run` only immediately before a test body is invoked (an
out-of-range index writes nothing, and no other coordinator function
writes it), and a normal return does not clear it; `panicked` therefore
classifies any panic — including one outside a test body — by the flag
value left by the most recently armed test. -/
theorem C10_should_panic_flag (st : RunState) (tests : List TestDescriptor)
    (module : String) (iv iw : Nat) (t : TestDescriptor) (s1 s2 s3 sT sF : Sys)
    (info : String)
    (hv : tests[iv]? = some t) (hw : tests[iw]? = (none : Option TestDescriptor))
    (hT : sT.shouldPanic = true) (hF : sF.shouldPanic = false) :
    (bootSys st).shouldPanic = false ∧
    ((__run tests module iv s1).1).shouldPanic = t.shouldPanic ∧
    (__run tests module iw s2).1 = s2 ∧
    (__test_set_up s3).shouldPanic = s3.shouldPanic ∧
    (__test_tear_down s3).shouldPanic = s3.shouldPanic ∧
    (__tear_down s3).shouldPanic = s3.shouldPanic ∧
    (__print_header s3).shouldPanic = s3.shouldPanic ∧
    (__list_tests tests module s3).shouldPanic = s3.shouldPanic ∧
    (__runall_initiate tests s3).shouldPanic = s3.shouldPanic ∧
    (printLine info s3).shouldPanic = s3.shouldPanic ∧
    (test_succeeded s3).shouldPanic = s3.shouldPanic ∧
    (test_failed info s3).shouldPanic = s3.shouldPanic ∧
    (test_panicked info s3).shouldPanic = s3.shouldPanic ∧
    (panicked info s3).shouldPanic = s3.shouldPanic ∧
    ((panicked info sT).store.success = (sT.store.success + 1) % 256 ∧
      Event.print "ok" ∈ traceDelta sT (panicked info sT)) ∧
    ((panicked info sF).store.success = sF.store.success ∧
      Event.print (" └─ stdout:\n" ++ info) ∈ traceDelta sF (panicked info sF)) := by
  have dT : traceDelta sT (panicked info sT) =
      [Event.print "ok", Event.tearDownHook] :=
    traceDelta_of_append _ _ _ (by
      simp [panicked, hT, test_succeeded, __test_tear_down])
  have dF : traceDelta sF (panicked info sF) =
      [Event.print "FAILED", Event.print (" └─ stdout:\n" ++ info), Event.tearDownHook] :=
    traceDelta_of_append _ _ _ (by
      simp [panicked, hF, test_panicked, __test_tear_down])
  refine ⟨rfl, ?_, ?_, rfl, rfl, rfl, rfl, rfl, rfl, rfl, rfl, rfl, rfl, ?_, ⟨?_, ?_⟩, ⟨?_, ?_⟩⟩
  · rcases hb : t.body with _ | pinfo
    · cases hp : t.shouldPanic
      · simp [__run, hv, hb, hp, test_succeeded]
      · simp [__run, hv, hb, hp, test_failed]
    · simp [__run, hv, hb]
  · simp [__run, hw]
  · cases hp : s3.shouldPanic
    · simp [panicked, hp, test_panicked, __test_tear_down]
    · simp [panicked, hp, test_succeeded, __test_tear_down]
  · simp [panicked, hT, test_succeeded, __test_tear_down, run_all.test_succeeded]
  · rw [dT]; simp
  · simp [panicked, hF, test_panicked, __test_tear_down]
  · rw [dF]; simp

/-- C1: when the persisted state is active at boot with next index `k` in
range, the entry point immediately takes the `__runall` step: it equals the
step that persists `k+1` and runs exactly test `k` (no menu, no
`activate()` call, no other test body), and the part of the resumption up
to entering the test cycle — reading the index and persisting `k+1` —
leaves the success counter (and the sentinel) unchanged. -/
theorem C1_resumes_at_persisted_index (autorun : Bool) (sel : Nat)
    (tests : List TestDescriptor) (module : String) (s : Sys) (k : Nat)
    (hact : run_all.is_active s.store = true)
    (hnext : s.store.next = k) (hk : k < numTests tests) :
    runner autorun sel tests module s = __runall tests module s ∧
    __runall tests module s =
      runTestCycle tests module k
        { s with store := run_all.set_next_test (k + 1) s.store } ∧
    (run_all.set_next_test (k + 1) s.store).success = s.store.success ∧
    (run_all.set_next_test (k + 1) s.store).secret = s.store.secret ∧
    Event.activateCall ∉ traceDelta s (__runall tests module s).1 ∧
    (traceDelta s (__runall tests module s).1).filter isBodyEvent = [Event.body k] := by
  have hlen : k < tests.length := lt_of_lt_of_le hk (Nat.mod_le _ _)
  have key : __runall tests module s =
      runTestCycle tests module k
        { s with store := run_all.set_next_test (k + 1) s.store } := by
    simp [__runall, run_all.get_next_test, hnext, hk]
  have hmain : Event.activateCall ∉ traceDelta s (__runall tests module s).1 ∧
      (traceDelta s (__runall tests module s).1).filter isBodyEvent = [Event.body k] := by
    rw [key]
    rcases ht : tests[k]? with _ | t
    · rw [List.getElem?_eq_none_iff] at ht
      omega
    · rcases hb : t.body with _ | info
      · cases hp : t.shouldPanic
        · have d : traceDelta s
              (runTestCycle tests module k
                { s with store := run_all.set_next_test (k + 1) s.store }).1 =
              [Event.setUpHook, Event.print ("test " ++ module ++ "::" ++ t.name ++ " ... "),
               Event.body k, Event.print "ok", Event.tearDownHook] :=
            traceDelta_of_append _ _ _ (by
              simp [runTestCycle, __run, ht, hb, hp, __test_set_up, __test_tear_down,
                test_succeeded])
          rw [d]
          constructor
          · simp
          · simp [isBodyEvent]
        · have d : traceDelta s
              (runTestCycle tests module k
                { s with store := run_all.set_next_test (k + 1) s.store }).1 =
              [Event.setUpHook, Event.print ("test " ++ module ++ "::" ++ t.name ++ " ... "),
               Event.body k, Event.print "FAILED", Event.print " └─ did not panic",
               Event.tearDownHook] :=
            traceDelta_of_append _ _ _ (by
              simp [runTestCycle, __run, ht, hb, hp, __test_set_up, __test_tear_down,
                test_failed])
          rw [d]
          constructor
          · simp
          · simp [isBodyEvent]
      · cases hp : t.shouldPanic
        · have d : traceDelta s
              (runTestCycle tests module k
                { s with store := run_all.set_next_test (k + 1) s.store }).1 =
              [Event.setUpHook, Event.print ("test " ++ module ++ "::" ++ t.name ++ " ... "),
               Event.body k, Event.print "FAILED", Event.print (" └─ stdout:\n" ++ info),
               Event.tearDownHook] :=
            traceDelta_of_append _ _ _ (by
              simp [runTestCycle, __run, ht, hb, hp, panicked, __test_set_up,
                __test_tear_down, test_panicked])
          rw [d]
          constructor
          · simp
          · simp [isBodyEvent]
        · have d : traceDelta s
              (runTestCycle tests module k
                { s with store := run_all.set_next_test (k + 1) s.store }).1 =
              [Event.setUpHook, Event.print ("test " ++ module ++ "::" ++ t.name ++ " ... "),
               Event.body k, Event.print "ok", Event.tearDownHook] :=
            traceDelta_of_append _ _ _ (by
              simp [runTestCycle, __run, ht, hb, hp, panicked, __test_set_up,
                __test_tear_down, test_succeeded])
          rw [d]
          constructor
          · simp
          · simp [isBodyEvent]
  refine ⟨?_, key, ?_, ?_, hmain.1, hmain.2⟩
  · simp [runner, hact]
  · simp [run_all.set_next_test]
  · simp [run_all.set_next_test]

theorem numTests_lt (tests : List TestDescriptor) : numTests tests < 256 :=
  Nat.mod_lt _ (by omega)

theorem wrapSub8_eq_sub (a b : Nat) (hb : b ≤ a) (ha : a < 256) :
    wrapSub8 a b = a - b := by
  unfold wrapSub8
  have hb' : b < 256 := lt_of_le_of_lt hb ha
  rw [Nat.mod_eq_of_lt ha, Nat.mod_eq_of_lt hb']
  omega

/-- C2: an in-range `RunningAll` step persists `nextIndex+1` and then runs
set-up, the test body and tear-down; an out-of-range step prints exactly
the one summary line `test result: outcome. S passed; N-S failed` with
outcome `ok` iff the success counter equals the number of tests (reported
passed plus failed totalling the number of tests), then clears the
sentinel via `deactivate()` and runs the one-time global tear-down,
returning without further progression. -/
theorem C2_runall_step_and_summary (tests : List TestDescriptor)
    (module : String) (s1 s2 : Sys)
    (hlt : s1.store.next < numTests tests)
    (hge : numTests tests ≤ s2.store.next)
    (hS : s2.store.success ≤ numTests tests) :
    __runall tests module s1 =
      runTestCycle tests module s1.store.next
        { s1 with store := run_all.set_next_test (s1.store.next + 1) s1.store } ∧
    (run_all.set_next_test (s1.store.next + 1) s1.store).next = s1.store.next + 1 ∧
    (__runall tests module s2).1.trace =
      s2.trace ++ [Event.print (summaryLine tests s2.store.success),
                   Event.deactivateCall, Event.globalTearDownHook] ∧
    summaryLine tests s2.store.success =
      "\ntest result: " ++
        (if s2.store.success = numTests tests then "ok" else "FAILED") ++
        ". " ++ toString s2.store.success ++ " passed; " ++
        toString (numTests tests - s2.store.success) ++ " failed" ∧
    s2.store.success + (numTests tests - s2.store.success) = numTests tests ∧
    run_all.is_active (__runall tests module s2).1.store = false ∧
    (__runall tests module s2).2 = false := by
  have hnot : ¬ (run_all.get_next_test s2.store < numTests tests) := by
    simp [run_all.get_next_test]
    omega
  refine ⟨?_, ?_, ?_, ?_, ?_, ?_, ?_⟩
  · simp [__runall, run_all.get_next_test, hlt]
  · have : s1.store.next + 1 < 256 := by
      have := numTests_lt tests
      omega
    simp [run_all.set_next_test, Nat.mod_eq_of_lt this]
  · simp [__runall, hnot, printLine, __tear_down, run_all.get_success_count]
  · unfold summaryLine
    rw [wrapSub8_eq_sub _ _ hS (numTests_lt tests)]
  · omega
  · simp [__runall, hnot, printLine, __tear_down, run_all.deactivate,
      run_all.is_active, run_all.SECRET_NUMBER]
  · simp [__runall, hnot]

/-- The spec's run-state invariant: while a run is active,
`successCount ≤ nextIndex ≤ numTests`. -/
def storeInv (tests : List TestDescriptor) (st : RunState) : Prop :=
  run_all.is_active st = true → st.success ≤ st.next ∧ st.next ≤ numTests tests

instance (tests : List TestDescriptor) (st : RunState) :
    Decidable (storeInv tests st) := by
  unfold storeInv
  infer_instance

/-- A test cycle never touches the sentinel. -/
theorem runTestCycle_secret (tests : List TestDescriptor) (module : String)
    (i : Nat) (s : Sys) :
    (runTestCycle tests module i s).1.store.secret = s.store.secret := by
  rcases runTestCycle_store tests module i s with h | h
  · rw [h]
  · rw [h]
    simp [run_all.test_succeeded]

/-- In-range `__runall` step, as an equation. -/
theorem runall_step_eq (tests : List TestDescriptor) (module : String) (s : Sys)
    (hlt : s.store.next < numTests tests) :
    __runall tests module s =
      runTestCycle tests module s.store.next
        { s with store := run_all.set_next_test (s.store.next + 1) s.store } := by
  simp [__runall, run_all.get_next_test, hlt]

/-- Out-of-range `__runall` step deactivates the store. -/
theorem runall_summary_store (tests : List TestDescriptor) (module : String)
    (s : Sys) (hge : ¬ s.store.next < numTests tests) :
    (__runall tests module s).1.store = run_all.deactivate s.store := by
  simp [__runall, run_all.get_next_test, hge, printLine, __tear_down]

/-- One `__runall` step preserves the active-run invariant. -/
theorem storeInv_runall (tests : List TestDescriptor) (module : String)
    (s : Sys) (hinv : storeInv tests s.store) :
    storeInv tests ((__runall tests module s).1.store) := by
  by_cases hlt : s.store.next < numTests tests
  · rw [runall_step_eq tests module s hlt]
    intro hact2
    have hsec : (runTestCycle tests module s.store.next
        { s with store := run_all.set_next_test (s.store.next + 1) s.store }).1.store.secret
        = s.store.secret := by
      rw [runTestCycle_secret]
      simp [run_all.set_next_test]
    have hact : run_all.is_active s.store = true := by
      unfold run_all.is_active at hact2 ⊢
      rw [hsec] at hact2
      exact hact2
    obtain ⟨h1, h2⟩ := hinv hact
    have hN : numTests tests < 256 := numTests_lt tests
    rcases runTestCycle_store tests module s.store.next
        { s with store := run_all.set_next_test (s.store.next + 1) s.store } with h | h
    · rw [h]
      simp [run_all.set_next_test,
        Nat.mod_eq_of_lt (show s.store.next + 1 < 256 by omega)]
      omega
    · rw [h]
      simp [run_all.test_succeeded, run_all.set_next_test,
        Nat.mod_eq_of_lt (show s.store.next + 1 < 256 by omega)]
      rw [Nat.mod_eq_of_lt (show s.store.success + 1 < 256 by omega)]
      omega
  · rw [runall_summary_store tests module s hlt]
    intro hact2
    simp [run_all.deactivate, run_all.is_active, run_all.SECRET_NUMBER] at hact2

/-- The interactive single-test path of `runner`: with the store inactive
and a selection other than 255, the cycle's result is the result of the
whole entry (the trailing active check sees an unchanged sentinel). -/
theorem runner_interactive_single (sel : Nat) (tests : List TestDescriptor)
    (module : String) (s : Sys)
    (hina : run_all.is_active s.store = false) (hsel : sel ≠ 255) :
    (runner false sel tests module s).1 =
      (runTestCycle tests module sel
        (printLine "" (__list_tests tests module (__print_header s)))).1 := by
  rcases hc : runTestCycle tests module sel
      (printLine "" (__list_tests tests module (__print_header s))) with ⟨s2, b⟩
  have hsec : s2.store.secret = s.store.secret := by
    have h := runTestCycle_secret tests module sel
      (printLine "" (__list_tests tests module (__print_header s)))
    rw [hc] at h
    simpa [printLine, __list_tests, __print_header] using h
  have hina2 : run_all.is_active s2.store = false := by
    unfold run_all.is_active at hina ⊢
    rw [hsec]
    exact hina
  cases b
  · simp [runner, hina, hsel, hc, hina2]
  · simp [runner, hina, hsel, hc]

/-- After `__runall_initiate` the store reads
`(SECRET_NUMBER, 0, 0)` no matter what it held before. -/
theorem runall_initiate_store (tests : List TestDescriptor) (s : Sys) :
    (__runall_initiate tests s).store =
      { secret := run_all.SECRET_NUMBER, next := 0, success := 0 } := by
  simp [__runall_initiate, printLine, run_all.activate, run_all.set_next_test]

/-- The autorun entry with an inactive store initiates and steps. -/
theorem runner_autorun_eq (sel : Nat) (tests : List TestDescriptor)
    (module : String) (s : Sys) (hina : run_all.is_active s.store = false) :
    runner true sel tests module s =
      __runall tests module (__runall_initiate tests (__print_header s)) := by
  have hact2 : run_all.is_active (__runall_initiate tests (__print_header s)).store = true := by
    rw [runall_initiate_store]
    simp [run_all.is_active]
  simp [runner, hina, hact2]

/-- The interactive entry on selection 255 initiates and steps. -/
theorem runner_select255_eq (tests : List TestDescriptor)
    (module : String) (s : Sys) (hina : run_all.is_active s.store = false) :
    runner false 255 tests module s =
      __runall tests module
        (__runall_initiate tests (__list_tests tests module (__print_header s))) := by
  have hact2 : run_all.is_active
      (__runall_initiate tests (__list_tests tests module (__print_header s))).store = true := by
    rw [runall_initiate_store]
    simp [run_all.is_active]
  simp [runner, hina, hact2]

/-- A whole `runner` entry preserves the active-run invariant. -/
theorem storeInv_runner (autorun : Bool) (sel : Nat)
    (tests : List TestDescriptor) (module : String) (s : Sys)
    (hinv : storeInv tests s.store) :
    storeInv tests ((runner autorun sel tests module s).1.store) := by
  by_cases hact : run_all.is_active s.store = true
  · have e : runner autorun sel tests module s = __runall tests module s := by
      simp [runner, hact]
    rw [e]
    exact storeInv_runall tests module s hinv
  · have hina : run_all.is_active s.store = false := by
      rwa [Bool.not_eq_true] at hact
    have hinv0 : ∀ s' : Sys, storeInv tests ((__runall_initiate tests s').store) := by
      intro s'
      rw [runall_initiate_store]
      intro _
      exact ⟨Nat.le_refl 0, Nat.zero_le _⟩
    cases autorun
    · by_cases hsel : sel = 255
      · subst hsel
        rw [runner_select255_eq tests module s hina]
        exact storeInv_runall _ _ _ (hinv0 _)
      · rw [runner_interactive_single sel tests module s hina hsel]
        intro hact2
        have hsec := runTestCycle_secret tests module sel
          (printLine "" (__list_tests tests module (__print_header s)))
        unfold run_all.is_active at hact2 hina
        rw [hsec] at hact2
        simp [printLine, __list_tests, __print_header] at hact2
        simp [hact2] at hina
    · rw [runner_autorun_eq sel tests module s hina]
      exact storeInv_runall _ _ _ (hinv0 _)

/-- C5: every coordinator entry preserves the active-run invariant
`successCount ≤ nextIndex ≤ numTests`; among the store's operations only
`activate` can establish the sentinel from an inactive state, and doing so
always zeroes the success counter; `activate` unconditionally zeroes the
counter and sets the sentinel. -/
theorem C5_active_invariant (autorun : Bool) (sel : Nat)
    (tests : List TestDescriptor) (module : String) (s : Sys)
    (op : StoreOp) (st st2 : RunState)
    (hinv : storeInv tests s.store)
    (hoff : run_all.is_active st = false)
    (hon : run_all.is_active (op.apply st) = true) :
    storeInv tests ((runner autorun sel tests module s).1.store) ∧
    (op = StoreOp.activateOp ∧ (op.apply st).success = 0) ∧
    ((run_all.activate st2).success = 0 ∧
      run_all.is_active (run_all.activate st2) = true) := by
  refine ⟨storeInv_runner autorun sel tests module s hinv, ?_, ?_⟩
  · cases op
    case activateOp => exact ⟨rfl, rfl⟩
    case deactivateOp =>
      exfalso
      simp [StoreOp.apply, run_all.deactivate, run_all.is_active,
        run_all.SECRET_NUMBER] at hon
    case setNextOp i =>
      exfalso
      simp [StoreOp.apply, run_all.set_next_test, run_all.is_active] at hon hoff
      exact absurd hon hoff
    case succeedOp =>
      exfalso
      simp [StoreOp.apply, run_all.test_succeeded, run_all.is_active] at hon hoff
      exact absurd hon hoff
  · constructor
    · simp [run_all.activate]
    · simp [run_all.is_active, run_all.activate]

/-- C8: with the store inactive, the autorun entry and the interactive
entry under selection 255 both reduce to `__runall_initiate` followed by
the identical `__runall` step; `__runall_initiate` leaves the store at
`(SECRET_NUMBER, 0, 0)` regardless of its prior contents — so both paths
enter `__runall` on identical stores — and appends exactly the
`activate()` call and the `running N tests` banner. -/
theorem C8_select255_equals_autorun (sel : Nat) (tests : List TestDescriptor)
    (module : String) (sA sB : Sys)
    (hA : run_all.is_active sA.store = false)
    (hB : run_all.is_active sB.store = false)
    (hcap : tests.length ≤ 254) :
    runner true sel tests module sA =
      __runall tests module (__runall_initiate tests (__print_header sA)) ∧
    runner false 255 tests module sB =
      __runall tests module
        (__runall_initiate tests (__list_tests tests module (__print_header sB))) ∧
    (__runall_initiate tests (__print_header sA)).store =
      { secret := run_all.SECRET_NUMBER, next := 0, success := 0 } ∧
    (__runall_initiate tests (__list_tests tests module (__print_header sB))).store =
      { secret := run_all.SECRET_NUMBER, next := 0, success := 0 } ∧
    (__runall_initiate tests (__print_header sA)).trace =
      (__print_header sA).trace ++
        [Event.activateCall,
         Event.print ("\nrunning " ++ toString tests.length ++ " tests")] ∧
    (__runall_initiate tests (__list_tests tests module (__print_header sB))).trace =
      (__list_tests tests module (__print_header sB)).trace ++
        [Event.activateCall,
         Event.print ("\nrunning " ++ toString tests.length ++ " tests")] := by
  have hnum : numTests tests = tests.length := Nat.mod_eq_of_lt (by omega)
  refine ⟨runner_autorun_eq sel tests module sA hA,
    runner_select255_eq tests module sB hB,
    runall_initiate_store tests _,
    runall_initiate_store tests _, ?_, ?_⟩
  · simp [__runall_initiate, printLine, hnum]
  · simp [__runall_initiate, printLine, hnum]

theorem take_of_append_eq {α : Type} (l m rest : List α) (h : l = m ++ rest) :
    l.take m.length = m := by
  subst h
  exact take_append_self m rest

theorem filter_body_map_print (lines : List String) :
    (lines.map Event.print).filter isBodyEvent = [] := by
  induction lines with
  | nil => rfl
  | cons a t ih => simp [isBodyEvent, ih]

/-- The header and menu print no test body. -/
theorem menu_no_body (tests : List TestDescriptor) (module : String) :
    (headerEvents ++ listEvents tests module).filter isBodyEvent = [] := by
  simp [headerEvents, listEvents, List.filter_append, filter_body_map_print,
    isBodyEvent]

/-- The header and menu never call `activate()`. -/
theorem menu_no_activate (tests : List TestDescriptor) (module : String) :
    Event.activateCall ∉ headerEvents ++ listEvents tests module := by
  simp [headerEvents, listEvents, testListLines]

/-- With an inactive store and autorun disabled, every `runner` entry
prints the header and the full menu before anything else. -/
theorem runner_menu_prefix (sel : Nat) (tests : List TestDescriptor)
    (module : String) (s : Sys)
    (hina : run_all.is_active s.store = false) :
    ∃ rest, (runner false sel tests module s).1.trace =
      (s.trace ++ headerEvents ++ listEvents tests module) ++ rest := by
  by_cases hsel : sel = 255
  · subst hsel
    rw [runner_select255_eq tests module s hina]
    obtain ⟨d, hd⟩ := runall_trace tests module
      (__runall_initiate tests (__list_tests tests module (__print_header s)))
    refine ⟨[Event.activateCall,
        Event.print ("\nrunning " ++ toString (numTests tests) ++ " tests")] ++ d, ?_⟩
    rw [hd]
    simp [__runall_initiate, printLine, __list_tests, __print_header]
  · rw [runner_interactive_single sel tests module s hina hsel]
    obtain ⟨d, hd⟩ := runTestCycle_trace tests module sel
      (printLine "" (__list_tests tests module (__print_header s)))
    refine ⟨[Event.print ""] ++ d, ?_⟩
    rw [hd]
    simp [printLine, __list_tests, __print_header]

/-- C4 counterexample: with the `autorun` feature enabled, a boot whose
sentinel holds a non-magic value does not fall back to the interactive
menu — it starts a fresh unattended run (`activate()` is called, the menu
is never printed). -/
theorem C4_counterexample :
    run_all.is_active { secret := 7, next := 5, success := 3 } = false ∧
    Event.print "[255] run all tests" ∉
      (runner true 0 demoTests "m"
        (bootSys { secret := 7, next := 5, success := 3 })).1.trace ∧
    Event.activateCall ∈
      (runner true 0 demoTests "m"
        (bootSys { secret := 7, next := 5, success := 3 })).1.trace := by
  refine ⟨by decide, by decide, by decide⟩

/-- C4 amended: any boot with a non-magic sentinel reads as "no active
run" regardless of stale index and counter values; and with
unattended-by-default disabled the coordinator then falls back to the
interactive menu — the header and the full test menu are printed first,
and no `activate()` call appears in that pre-selection output (with
autorun enabled such a boot instead starts a fresh run, as the
counterexample shows). -/
theorem C4_amended_cold_boot (g n c sel : Nat) (tests : List TestDescriptor)
    (module : String) (hg : g ≠ run_all.SECRET_NUMBER) :
    run_all.is_active { secret := g, next := n, success := c } = false ∧
    (runner false sel tests module
        (bootSys { secret := g, next := n, success := c })).1.trace.take
        (headerEvents ++ listEvents tests module).length
      = headerEvents ++ listEvents tests module ∧
    Event.activateCall ∉ headerEvents ++ listEvents tests module := by
  have hina : run_all.is_active { secret := g, next := n, success := c } = false := by
    simp [run_all.is_active, hg]
  refine ⟨hina, ?_, menu_no_activate tests module⟩
  obtain ⟨rest, hrest⟩ := runner_menu_prefix sel tests module
    (bootSys { secret := g, next := n, success := c }) hina
  rw [show (bootSys { secret := g, next := n, success := c }).trace ++ headerEvents
      = headerEvents from rfl] at hrest
  exact take_of_append_eq _ _ _ hrest

/-- C7: with the store inactive and unattended-by-default disabled, the
entry point prints the header and the full interactive menu before
anything else; those pre-selection events invoke no test body; and for a
selection outside `0..N-1` and different from the run-all sentinel 255,
the whole entry invokes no test body at all. -/
theorem C7_interactive_gate (sel1 sel2 : Nat) (tests : List TestDescriptor)
    (module : String) (s1 s2 : Sys)
    (hina1 : run_all.is_active s1.store = false)
    (hina2 : run_all.is_active s2.store = false)
    (_hcap : tests.length ≤ 254)
    (hsel : sel2 ≠ 255) (hout : tests.length ≤ sel2) :
    (runner false sel1 tests module s1).1.trace.take
        (s1.trace ++ headerEvents ++ listEvents tests module).length
      = s1.trace ++ headerEvents ++ listEvents tests module ∧
    (headerEvents ++ listEvents tests module).filter isBodyEvent = [] ∧
    (traceDelta s2 (runner false sel2 tests module s2).1).filter isBodyEvent = [] := by
  refine ⟨?_, menu_no_body tests module, ?_⟩
  · obtain ⟨rest, hrest⟩ := runner_menu_prefix sel1 tests module s1 hina1
    exact take_of_append_eq _ _ _ hrest
  · have hnone : tests[sel2]? = none := by
      rw [List.getElem?_eq_none_iff]
      exact hout
    have d : traceDelta s2 (runner false sel2 tests module s2).1 =
        headerEvents ++ listEvents tests module ++
          [Event.print "", Event.setUpHook, Event.tearDownHook] := by
      rw [runner_interactive_single sel2 tests module s2 hina2 hsel]
      exact traceDelta_of_append _ _ _ (by
        simp [runTestCycle, __run, hnone, __test_set_up, __test_tear_down,
          printLine, __list_tests, __print_header])
    rw [d, List.filter_append, menu_no_body tests module]
    simp [isBodyEvent]

/-- `readln` consumes bytes up to the first terminator: if it arrives while
slots remain, the loop returns `Ok` with everything read so far. -/
theorem readlnAux_term (t : Nat) (ht : t = 10 ∨ t = 13) :
    ∀ (pre : List Nat) (slots : Nat) (acc : List Nat)
      (rest : List serial.ReadEvent),
      (∀ b ∈ pre, ¬(b = 10 ∨ b = 13)) → pre.length < slots →
      serial.readlnAux (pre.map Except.ok ++ [Except.ok t] ++ rest) slots acc
        = some (Except.ok ((acc ++ pre).length, acc ++ pre), rest) := by
  intro pre
  induction pre with
  | nil =>
      intro slots acc rest _ hlt
      rcases slots with _ | m
      · omega
      · simp [serial.readlnAux, ht]
  | cons b bs ih =>
      intro slots acc rest hno hlt
      rcases slots with _ | m
      · omega
      · have hb : ¬(b = 10 ∨ b = 13) := hno b (List.mem_cons_self b bs)
        have hbs : ∀ x ∈ bs, ¬(x = 10 ∨ x = 13) := fun x hx => hno x (List.mem_cons_of_mem b hx)
        have hlen : bs.length < m := by
          simp at hlt
          omega
        simp only [List.map_cons, List.cons_append, serial.readlnAux, hb, if_false,
          List.append_eq]
        rw [ih m (acc ++ [b]) rest hbs hlen]
        simp

/-- `readln` returns `BufferOverrun` exactly when as many bytes as there
are buffer slots arrive without a terminator. -/
theorem readlnAux_overrun :
    ∀ (bytes : List Nat) (acc : List Nat) (rest : List serial.ReadEvent),
      (∀ b ∈ bytes, ¬(b = 10 ∨ b = 13)) →
      serial.readlnAux (bytes.map Except.ok ++ rest) bytes.length acc
        = some (Except.error serial.Error.BufferOverrun, rest) := by
  intro bytes
  induction bytes with
  | nil =>
      intro acc rest _
      simp [serial.readlnAux]
  | cons b bs ih =>
      intro acc rest hno
      have hb : ¬(b = 10 ∨ b = 13) := hno b (List.mem_cons_self b bs)
      have hbs : ∀ x ∈ bs, ¬(x = 10 ∨ x = 13) := fun x hx => hno x (List.mem_cons_of_mem b hx)
      simp only [List.map_cons, List.cons_append, List.length_cons, serial.readlnAux,
        hb, if_false]
      exact ih (acc ++ [b]) rest hbs

/-- Whenever `readln`'s loop answers `Ok (n, w)`, `n` is the number of
bytes written and strictly fewer bytes than there are slots were
written. -/
theorem readlnAux_ok_bounds :
    ∀ (stream : List serial.ReadEvent) (slots : Nat) (acc : List Nat)
      (n : Nat) (w : List Nat) (rest : List serial.ReadEvent),
      serial.readlnAux stream slots acc = some (Except.ok (n, w), rest) →
      n = w.length ∧ w.length < acc.length + slots := by
  intro stream
  induction stream with
  | nil =>
      intro slots acc n w rest h
      rcases slots with _ | m
      · simp [serial.readlnAux] at h
      · simp [serial.readlnAux] at h
  | cons ev rest' ih =>
      intro slots acc n w rest h
      rcases slots with _ | m
      · simp [serial.readlnAux] at h
      · rcases ev with e | b
        · simp [serial.readlnAux] at h
        · by_cases hb : b = 10 ∨ b = 13
          · simp only [serial.readlnAux, hb, if_true] at h
            obtain ⟨⟨hn, hw⟩, _⟩ := by
              simpa using h
            subst hw
            constructor
            · omega
            · omega
          · simp only [serial.readlnAux, hb, if_false] at h
            have := ih m (acc ++ [b]) n w rest h
            simp at this
            omega

/-- C9: `Serial::readln` returns `Ok(i)` with exactly the first `i` bytes
stored, as soon as a newline or carriage-return byte arrives while buffer
slots remain; it returns `BufferOverrun` once as many bytes as the buffer
holds arrive without a terminator; and any `Ok (n, w)` answer satisfies
`n = |w| < buflen`, so the buffer is never written past its end. -/
theorem C9_readln_line_reader (buflen : Nat) (pre bytes : List Nat) (t n : Nat)
    (w : List Nat) (stream rest1 rest2 rest3 : List serial.ReadEvent)
    (ht : t = 10 ∨ t = 13)
    (hpre : ∀ b ∈ pre, ¬(b = 10 ∨ b = 13)) (hlen : pre.length < buflen)
    (hbytes : ∀ b ∈ bytes, ¬(b = 10 ∨ b = 13)) (hblen : bytes.length = buflen)
    (hok : serial.readln true buflen stream = some (Except.ok (n, w), rest3)) :
    serial.readln true buflen (pre.map Except.ok ++ [Except.ok t] ++ rest1)
      = some (Except.ok (pre.length, pre), rest1) ∧
    serial.readln true buflen (bytes.map Except.ok ++ rest2)
      = some (Except.error serial.Error.BufferOverrun, rest2) ∧
    n = w.length ∧ w.length < buflen := by
  refine ⟨?_, ?_, ?_⟩
  · have h := readlnAux_term t ht pre buflen [] rest1 hpre hlen
    simpa [serial.readln] using h
  · have h := readlnAux_overrun bytes [] rest2 hbytes
    rw [hblen] at h
    simpa [serial.readln] using h
  · have h := readlnAux_ok_bounds stream buflen [] n w rest3
      (by simpa [serial.readln] using hok)
    simpa using h

/-- A successful `u8` parse never exceeds 255. -/
theorem parse_u8_le (bs : List Nat) (v : Nat)
    (h : console.parse_u8 bs = some v) : v ≤ 255 := by
  simp only [console.parse_u8] at h
  split at h
  · split at h
    · injection h with h1
      omega
    · cases h
  · cases h

/-- One console-loop iteration hands back an index only out of a
successful `u8` parse, hence bounded by 255. -/
theorem hui_iter_le (downlink : Bool) (stream : List serial.ReadEvent)
    (j : Nat) (lines : List String) (rest : List serial.ReadEvent)
    (h : console.handle_user_input_iter downlink stream = some (some j, lines, rest)) :
    j ≤ 255 := by
  unfold console.handle_user_input_iter at h
  rcases hr : serial.readln downlink 128 stream with _ | ⟨res, rest2⟩
  · rw [hr] at h
    cases h
  · rw [hr] at h
    rcases res with e | p
    · simp at h
    · rcases p with ⟨n, bytes⟩
      rcases hp : console.parse_u8 bytes with _ | k
      · by_cases hu : console.validUtf8 bytes = true
        · simp [hu, hp] at h
        · have hu2 : console.validUtf8 bytes = false := by
            simpa using hu
          simp [hu2] at h
      · by_cases hu : console.validUtf8 bytes = true
        · simp [hu, hp] at h
          have hb := parse_u8_le bytes k hp
          omega
        · have hu2 : console.validUtf8 bytes = false := by
            simpa using hu
          simp [hu2] at h

/-- Whatever `handle_user_input` returns came out of a `u8` parse. -/
theorem hui_le (downlink : Bool) :
    ∀ (fuel : Nat) (stream : List serial.ReadEvent) (i : Nat)
      (lines : List String),
      console.handle_user_input downlink fuel stream = some (i, lines) →
      i < 256 := by
  intro fuel
  induction fuel with
  | zero =>
      intro stream i lines h
      simp [console.handle_user_input] at h
  | succ m ih =>
      intro stream i lines h
      unfold console.handle_user_input at h
      rcases hit : console.handle_user_input_iter downlink stream with _ | ⟨oi, ls, rest⟩
      · rw [hit] at h
        cases h
      · rw [hit] at h
        rcases oi with _ | j
        · rcases hrec : console.handle_user_input downlink m rest with _ | ⟨p⟩
          · simp [hrec] at h
          · rcases p with ⟨k, more⟩
            simp [hrec] at h
            have hk := ih rest k more hrec
            omega
        · simp at h
          have hb := hui_iter_le downlink stream j ls rest hit
          omega

/-- The console loop leaves the whole persisted store (and the flag)
untouched; its only effect on the system is its printed lines. -/
theorem hui_in_sys_store (downlink : Bool) (fuel : Nat)
    (stream : List serial.ReadEvent) (s : Sys) (i : Nat) (s2 : Sys)
    (h : handle_user_input_in_sys downlink fuel stream s = some (i, s2)) :
    s2.store = s.store ∧ s2.shouldPanic = s.shouldPanic := by
  unfold handle_user_input_in_sys at h
  rcases hh : console.handle_user_input downlink fuel stream with _ | ⟨p⟩
  · rw [hh] at h
    cases h
  · rcases p with ⟨k, lines⟩
    rw [hh] at h
    simp at h
    obtain ⟨_, hs⟩ := h
    subst hs
    exact ⟨rfl, rfl⟩

/-- C6 counterexample: a received line that is not valid UTF-8 (here the
single byte 0xFF) makes the console loop retry without printing any
diagnostic line — the iteration reports no line at all, and the loop then
returns the next line's index 5 with an empty diagnostic list — refuting
the claim that a malformed-UTF-8 failure reports a diagnostic line. -/
theorem C6_counterexample :
    console.handle_user_input_iter true [Except.ok 255, Except.ok 10]
      = some (none, [], []) ∧
    console.handle_user_input true 2
        [Except.ok 255, Except.ok 10, Except.ok 53, Except.ok 10]
      = some (5, []) := by
  exact ⟨rfl, rfl⟩

/-- C6 amended: a channel I/O error makes the loop print its diagnostic
(followed by the parse diagnostic for the still-empty line) and retry; a
valid-UTF-8 line that fails to parse prints exactly the parse diagnostic
and retries; a malformed-UTF-8 line silently retries with no diagnostic;
the loop only ever returns an index below 256; the malformed input
"xyz\n" produces exactly one diagnostic line and a retry; and the loop
leaves the persisted run state untouched. -/
theorem C6_amended_console_loop (e : serial.Error)
    (stream1 stream2 stream3 rest1 rest2 rest3 rest5 : List serial.ReadEvent)
    (n2 n3 : Nat) (bytes2 bytes3 : List Nat)
    (fuel4 : Nat) (stream4 : List serial.ReadEvent) (i4 : Nat)
    (lines4 : List String)
    (fuel5 : Nat) (s5 : Sys) (i5 : Nat) (s5t : Sys)
    (stream5 : List serial.ReadEvent)
    (h1 : serial.readln true 128 stream1 = some (Except.error e, rest1))
    (h2a : serial.readln true 128 stream2 = some (Except.ok (n2, bytes2), rest2))
    (h2b : console.validUtf8 bytes2 = true)
    (h2c : console.parse_u8 bytes2 = none)
    (h3a : serial.readln true 128 stream3 = some (Except.ok (n3, bytes3), rest3))
    (h3b : console.validUtf8 bytes3 = false)
    (h4 : console.handle_user_input true fuel4 stream4 = some (i4, lines4))
    (h5 : handle_user_input_in_sys true fuel5 stream5 s5 = some (i5, s5t)) :
    console.handle_user_input_iter true stream1
      = some (none, [console.errorLine e, console.parseErrorLine], rest1) ∧
    console.handle_user_input_iter true stream2
      = some (none, [console.parseErrorLine], rest2) ∧
    console.handle_user_input_iter true stream3 = some (none, [], rest3) ∧
    i4 < 256 ∧
    console.handle_user_input_iter true
        ([Except.ok 120, Except.ok 121, Except.ok 122, Except.ok 10] ++ rest5)
      = some (none, [console.parseErrorLine], rest5) ∧
    s5t.store = s5.store := by
  refine ⟨?_, ?_, ?_, hui_le true fuel4 stream4 i4 lines4 h4, ?_,
    (hui_in_sys_store true fuel5 stream5 s5 i5 s5t h5).1⟩
  · unfold console.handle_user_input_iter
    rw [h1]
  · unfold console.handle_user_input_iter
    rw [h2a]
    simp [h2b, h2c]
  · unfold console.handle_user_input_iter
    rw [h3a]
    simp [h3b]
  · have hxyz : serial.readln true 128
        ([Except.ok 120, Except.ok 121, Except.ok 122, Except.ok 10] ++ rest5)
        = some (Except.ok (3, [120, 121, 122]), rest5) := by
      have h := readlnAux_term 10 (Or.inl rfl) [120, 121, 122] 128 [] rest5
        (by decide) (by decide)
      simpa [serial.readln] using h
    have hv : console.validUtf8 [120, 121, 122] = true := by decide
    have hp : console.parse_u8 [120, 121, 122] = none := by decide
    unfold console.handle_user_input_iter
    rw [hxyz]
    simp [hv, hp]

/-! ### Concrete witness states -/

/-- Boot with all-zero ephemeral state and an inactive store. -/
def s0 : Sys := bootSys { secret := 0, next := 0, success := 0 }

/-- Boot resuming an active run at test 2 with one success so far. -/
def sResume : Sys :=
  bootSys { secret := run_all.SECRET_NUMBER, next := 2, success := 1 }

/-- Boot with an active run past the last test (summary due). -/
def sDone : Sys :=
  bootSys { secret := run_all.SECRET_NUMBER, next := 4, success := 3 }

/-- Boot with garbage in the persisted region (cold power-on). -/
def sStale : Sys := bootSys { secret := 7, next := 5, success := 3 }

theorem C1_witness :
    runner false 0 demoTests "m" sResume = __runall demoTests "m" sResume ∧
    __runall demoTests "m" sResume =
      runTestCycle demoTests "m" 2
        { sResume with store := run_all.set_next_test (2 + 1) sResume.store } ∧
    (run_all.set_next_test (2 + 1) sResume.store).success = sResume.store.success ∧
    (run_all.set_next_test (2 + 1) sResume.store).secret = sResume.store.secret ∧
    Event.activateCall ∉ traceDelta sResume (__runall demoTests "m" sResume).1 ∧
    (traceDelta sResume (__runall demoTests "m" sResume).1).filter isBodyEvent
      = [Event.body 2] :=
  C1_resumes_at_persisted_index false 0 demoTests "m" sResume 2
    (by decide) (by decide) (by decide)

theorem C2_witness :
    __runall demoTests "m" sResume =
      runTestCycle demoTests "m" sResume.store.next
        { sResume with
          store := run_all.set_next_test (sResume.store.next + 1) sResume.store } ∧
    (run_all.set_next_test (sResume.store.next + 1) sResume.store).next
      = sResume.store.next + 1 ∧
    (__runall demoTests "m" sDone).1.trace =
      sDone.trace ++ [Event.print (summaryLine demoTests sDone.store.success),
                      Event.deactivateCall, Event.globalTearDownHook] ∧
    summaryLine demoTests sDone.store.success =
      "\ntest result: " ++
        (if sDone.store.success = numTests demoTests then "ok" else "FAILED") ++
        ". " ++ toString sDone.store.success ++ " passed; " ++
        toString (numTests demoTests - sDone.store.success) ++ " failed" ∧
    sDone.store.success + (numTests demoTests - sDone.store.success)
      = numTests demoTests ∧
    run_all.is_active (__runall demoTests "m" sDone).1.store = false ∧
    (__runall demoTests "m" sDone).2 = false :=
  C2_runall_step_and_summary demoTests "m" sResume sDone
    (by decide) (by decide) (by decide)

theorem C3_witness :
    ((runTestCycle demoTests "m" 1 s0).1.store.success
        = (s0.store.success + 1) % 256 ∧
      Event.print "ok" ∈ traceDelta s0 (runTestCycle demoTests "m" 1 s0).1) ∧
    ((runTestCycle demoTests "m" 3 s0).1.store.success = s0.store.success ∧
      Event.print "FAILED" ∈ traceDelta s0 (runTestCycle demoTests "m" 3 s0).1 ∧
      Event.print " └─ did not panic"
        ∈ traceDelta s0 (runTestCycle demoTests "m" 3 s0).1) ∧
    ((runTestCycle demoTests "m" 2 s0).1.store.success = s0.store.success ∧
      Event.print "FAILED" ∈ traceDelta s0 (runTestCycle demoTests "m" 2 s0).1 ∧
      Event.print (" └─ stdout:\n" ++ "assertion failed")
        ∈ traceDelta s0 (runTestCycle demoTests "m" 2 s0).1) ∧
    List.count Event.tearDownHook
      (traceDelta s0 (runTestCycle demoTests "m" 0 s0).1) = 1 :=
  C3_panic_bridge demoTests "m" 1 3 2 0
    { name := "b", shouldPanic := true, body := BodyOutcome.panics "b panicked" }
    { name := "d", shouldPanic := true, body := BodyOutcome.normal }
    { name := "c", shouldPanic := false, body := BodyOutcome.panics "assertion failed" }
    { name := "a", shouldPanic := false, body := BodyOutcome.normal }
    "b panicked" "assertion failed" s0 s0 s0 s0
    (by decide) (by decide) (by decide)
    (by decide) (by decide) (by decide)
    (by decide) (by decide) (by decide)
    (by decide)

theorem C4_amended_witness :
    run_all.is_active { secret := 7, next := 5, success := 3 } = false ∧
    (runner false 0 demoTests "m"
        (bootSys { secret := 7, next := 5, success := 3 })).1.trace.take
        (headerEvents ++ listEvents demoTests "m").length
      = headerEvents ++ listEvents demoTests "m" ∧
    Event.activateCall ∉ headerEvents ++ listEvents demoTests "m" :=
  C4_amended_cold_boot 7 5 3 0 demoTests "m" (by decide)

theorem C5_witness :
    storeInv demoTests ((runner false 0 demoTests "m" sResume).1.store) ∧
    (StoreOp.activateOp = StoreOp.activateOp ∧
      (StoreOp.activateOp.apply { secret := 0, next := 0, success := 0 }).success = 0) ∧
    ((run_all.activate { secret := 9, next := 9, success := 9 }).success = 0 ∧
      run_all.is_active
        (run_all.activate { secret := 9, next := 9, success := 9 }) = true) :=
  C5_active_invariant false 0 demoTests "m" sResume StoreOp.activateOp
    { secret := 0, next := 0, success := 0 } { secret := 9, next := 9, success := 9 }
    (by decide) (by decide) (by decide)

theorem C6_amended_witness :
    console.handle_user_input_iter true [Except.error serial.Error.BufferOverrun]
      = some (none, [console.errorLine serial.Error.BufferOverrun,
                     console.parseErrorLine], []) ∧
    console.handle_user_input_iter true
        [Except.ok 120, Except.ok 121, Except.ok 122, Except.ok 10]
      = some (none, [console.parseErrorLine], []) ∧
    console.handle_user_input_iter true [Except.ok 255, Except.ok 10]
      = some (none, [], []) ∧
    (5 : Nat) < 256 ∧
    console.handle_user_input_iter true
        ([Except.ok 120, Except.ok 121, Except.ok 122, Except.ok 10] ++ [Except.ok 99])
      = some (none, [console.parseErrorLine], [Except.ok 99]) ∧
    s0.store = s0.store :=
  C6_amended_console_loop serial.Error.BufferOverrun
    [Except.error serial.Error.BufferOverrun]
    [Except.ok 120, Except.ok 121, Except.ok 122, Except.ok 10]
    [Except.ok 255, Except.ok 10] [] [] [] [Except.ok 99]
    3 1 [120, 121, 122] [255]
    1 [Except.ok 53, Except.ok 10] 5 []
    1 s0 5 s0 [Except.ok 53, Except.ok 10]
    rfl rfl (by decide) (by decide) rfl (by decide) rfl rfl

theorem C7_witness :
    (runner false 3 demoTests "m" sStale).1.trace.take
        (sStale.trace ++ headerEvents ++ listEvents demoTests "m").length
      = sStale.trace ++ headerEvents ++ listEvents demoTests "m" ∧
    (headerEvents ++ listEvents demoTests "m").filter isBodyEvent = [] ∧
    (traceDelta sStale (runner false 200 demoTests "m" sStale).1).filter isBodyEvent
      = [] :=
  C7_interactive_gate 3 200 demoTests "m" sStale sStale
    (by decide) (by decide) (by decide) (by decide) (by decide)

theorem C8_witness :
    runner true 0 demoTests "m" s0 =
      __runall demoTests "m" (__runall_initiate demoTests (__print_header s0)) ∧
    runner false 255 demoTests "m" sStale =
      __runall demoTests "m"
        (__runall_initiate demoTests
          (__list_tests demoTests "m" (__print_header sStale))) ∧
    (__runall_initiate demoTests (__print_header s0)).store =
      { secret := run_all.SECRET_NUMBER, next := 0, success := 0 } ∧
    (__runall_initiate demoTests
        (__list_tests demoTests "m" (__print_header sStale))).store =
      { secret := run_all.SECRET_NUMBER, next := 0, success := 0 } ∧
    (__runall_initiate demoTests (__print_header s0)).trace =
      (__print_header s0).trace ++
        [Event.activateCall,
         Event.print ("\nrunning " ++ toString demoTests.length ++ " tests")] ∧
    (__runall_initiate demoTests
        (__list_tests demoTests "m" (__print_header sStale))).trace =
      (__list_tests demoTests "m" (__print_header sStale)).trace ++
        [Event.activateCall,
         Event.print ("\nrunning " ++ toString demoTests.length ++ " tests")] :=
  C8_select255_equals_autorun 0 demoTests "m" s0 sStale
    (by decide) (by decide) (by decide)

set_option maxRecDepth 4000 in
theorem C9_witness :
    serial.readln true 128
        ([53].map Except.ok ++ [Except.ok 10] ++ [Except.ok 7])
      = some (Except.ok ((1 : Nat), [53]), [Except.ok 7]) ∧
    serial.readln true 128
        ((List.replicate 128 65).map Except.ok ++ [Except.error serial.Error.Peripheral])
      = some (Except.error serial.Error.BufferOverrun,
              [Except.error serial.Error.Peripheral]) ∧
    (1 : Nat) = [53].length ∧ [53].length < 128 :=
  C9_readln_line_reader 128 [53] (List.replicate 128 65) 10 1 [53]
    [Except.ok 53, Except.ok 10] [Except.ok 7]
    [Except.error serial.Error.Peripheral] []
    (by decide) (by decide) (by decide) (by decide) (by decide) rfl

theorem C10_witness :
    (bootSys { secret := 1, next := 2, success := 3 }).shouldPanic = false ∧
    ((__run demoTests "m" 1 s0).1).shouldPanic =
      ({ name := "b", shouldPanic := true,
         body := BodyOutcome.panics "b panicked" } : TestDescriptor).shouldPanic ∧
    (__run demoTests "m" 9 s0).1 = s0 ∧
    (__test_set_up s0).shouldPanic = s0.shouldPanic ∧
    (__test_tear_down s0).shouldPanic = s0.shouldPanic ∧
    (__tear_down s0).shouldPanic = s0.shouldPanic ∧
    (__print_header s0).shouldPanic = s0.shouldPanic ∧
    (__list_tests demoTests "m" s0).shouldPanic = s0.shouldPanic ∧
    (__runall_initiate demoTests s0).shouldPanic = s0.shouldPanic ∧
    (printLine "boom" s0).shouldPanic = s0.shouldPanic ∧
    (test_succeeded s0).shouldPanic = s0.shouldPanic ∧
    (test_failed "boom" s0).shouldPanic = s0.shouldPanic ∧
    (test_panicked "boom" s0).shouldPanic = s0.shouldPanic ∧
    (panicked "boom" s0).shouldPanic = s0.shouldPanic ∧
    ((panicked "boom" { s0 with shouldPanic := true }).store.success =
        (({ s0 with shouldPanic := true } : Sys).store.success + 1) % 256 ∧
      Event.print "ok" ∈
        traceDelta { s0 with shouldPanic := true }
          (panicked "boom" { s0 with shouldPanic := true })) ∧
    ((panicked "boom" s0).store.success = s0.store.success ∧
      Event.print (" └─ stdout:\n" ++ "boom") ∈ traceDelta s0 (panicked "boom" s0)) :=
  C10_should_panic_flag { secret := 1, next := 2, success := 3 } demoTests "m" 1 9
    { name := "b", shouldPanic := true, body := BodyOutcome.panics "b panicked" }
    s0 s0 s0 { s0 with shouldPanic := true } s0 "boom"
    (by decide) (by decide) (by decide) (by decide)
